import Mathlib

/-!
Shallow embedding of the monitoring core of `binance-crypto-alert-v2`
(`src/core/monitor.py` and `src/core/price_tracker.py`), verified against
its natural-language specification.

Modelling conventions:
* Prices and timestamps are rationals (`ℚ`), timestamps measured in minutes
  since an arbitrary epoch; `timedelta(hours=1)` becomes `60`,
  `timedelta(minutes=w)` becomes `w`.
* Python dictionaries become association lists with dictionary update
  semantics (`dictSet` replaces in place, `dictGet` finds the first match).
* The price feed `get_all_futures_prices` is an external collaborator; a
  tick receives it as a function `feed : ℕ → List (String × ℚ)` giving the
  result of each successive fetch call made during that tick, with `[]`
  standing for both "empty payload" and "network failure" (the Python
  function returns `{}` on any exception).
* File persistence (`json.dump` in `_save_tracking_session`) is modelled by
  returning the finalized session records; console printing, wall-clock
  sleeping and `test_mode` price perturbation are outside the embedding,
  as are the calendar-derived analytics fields (`session_start_hour`,
  `session_start_weekday`) which need a datetime library.
* `statistics.stdev` returns the square root of the sample variance, which
  is irrational in general; the embedding records the sample variance
  itself (the code also stores it, as `variance`), so the code's
  `volatility_stdev` is the nonnegative square root of the embedded
  `volatility_sq` field, and one is zero exactly when the other is.
-/

namespace CryptoAlert

/-- Dictionary read: first binding of the key, as Python `d.get(k)` /
`d[k]` on a dict with unique keys. -/
def dictGet {α : Type} : List (String × α) → String → Option α
  | [], _ => none
  | (k₁, v₁) :: rest, k => if k₁ = k then some v₁ else dictGet rest k

/-- Dictionary write `d[k] = v`: replaces the binding in place if the key
is present (Python dicts keep insertion order on overwrite), otherwise
appends a new binding. -/
def dictSet {α : Type} : List (String × α) → String → α → List (String × α)
  | [], k, v => [(k, v)]
  | (k₁, v₁) :: rest, k, v =>
      if k₁ = k then (k, v) :: rest else (k₁, v₁) :: dictSet rest k v

/-- `tracking_info` dict built by `PriceTracker.start_tracking`
(src/core/price_tracker.py lines 29-43). `session_id`'s timestamp part is
rendered from the rational timestamp. -/
structure TrackingInfo where
  symbol : String
  start_time : ℚ
  end_time : ℚ
  initial_price : ℚ
  threshold_type : String
  threshold_value : ℚ
  window_minutes : ℚ
  price_data : List (ℚ × ℚ)
  session_id : String
deriving DecidableEq, Repr

/-- `PriceTracker` state: the `tracking_sessions` dict, symbol →
tracking info (src/core/price_tracker.py line 9). The
`tracking_directory` attribute is a constant path for file persistence
and is outside the embedding. -/
structure PriceTracker where
  tracking_sessions : List (String × TrackingInfo)
deriving DecidableEq, Repr

/-- The fresh `tracking_info` record `start_tracking` builds at time
`now`: `end_time = now + 1 hour`, `price_data` seeded with the single
triggering sample. -/
def mkTrackingInfo (now : ℚ) (symbol : String) (initial_price : ℚ)
    (threshold_type : String) (threshold_value : ℚ) (window_minutes : ℚ) :
    TrackingInfo :=
  { symbol := symbol
    start_time := now
    end_time := now + 60
    initial_price := initial_price
    threshold_type := threshold_type
    threshold_value := threshold_value
    window_minutes := window_minutes
    price_data := [(now, initial_price)]
    session_id := symbol ++ ("_") ++ toString now }

/-- `PriceTracker.start_tracking` (src/core/price_tracker.py lines 17-45):
unconditionally stores a fresh session under `symbol` in
`tracking_sessions` (a plain dict assignment, overwriting any session
already there). -/
def start_tracking (now : ℚ) (symbol : String) (initial_price : ℚ)
    (threshold_type : String) (threshold_value : ℚ) (window_minutes : ℚ)
    (trk : PriceTracker) : PriceTracker :=
  { trk with
      tracking_sessions :=
        dictSet trk.tracking_sessions symbol
          (mkTrackingInfo now symbol initial_price threshold_type
            threshold_value window_minutes) }

/-- `PriceTracker.is_tracking` (src/core/price_tracker.py lines 214-216):
`symbol in self.tracking_sessions`. -/
def is_tracking (trk : PriceTracker) (symbol : String) : Bool :=
  (dictGet trk.tracking_sessions symbol).isSome

/-- `PriceTracker.get_active_tracking_count`. -/
def get_active_tracking_count (trk : PriceTracker) : ℕ :=
  trk.tracking_sessions.length

/-- `PriceTracker.get_active_symbols`. -/
def get_active_symbols (trk : PriceTracker) : List String :=
  trk.tracking_sessions.map (·.1)

/-- The guarded call site in the monitor's alert branches
(src/core/monitor.py lines 76-77 and 85-86):
`if not price_tracker.is_tracking(symbol): price_tracker.start_tracking(...)`. -/
def guardedStart (now : ℚ) (symbol : String) (initial_price : ℚ)
    (threshold_type : String) (threshold_value : ℚ) (window_minutes : ℚ)
    (trk : PriceTracker) : PriceTracker :=
  if is_tracking trk symbol then trk
  else start_tracking now symbol initial_price threshold_type
    threshold_value window_minutes trk

/-- Python `max(l)` on a nonempty list (junk value 0 on `[]`, which the
code never hits thanks to the `len(price_data) > 1` guard). -/
def listMax : List ℚ → ℚ
  | [] => 0
  | x :: xs => xs.foldl max x

/-- Python `min(l)` on a nonempty list. -/
def listMin : List ℚ → ℚ
  | [] => 0
  | x :: xs => xs.foldl min x

/-- Python `sum(l) / len(l)`. -/
def listMean (l : List ℚ) : ℚ := l.sum / l.length

/-- The consecutive step changes `(p_i − p_{i−1}) / p_{i−1} * 100`
(the `percent_changes` list of `_save_tracking_session`,
src/core/price_tracker.py lines 111-117). -/
def stepChanges : List ℚ → List ℚ
  | p₁ :: p₂ :: rest => ((p₂ - p₁) / p₁ * 100) :: stepChanges (p₂ :: rest)
  | _ => []

/-- `statistics.variance`: the sample variance with denominator `n − 1`
(the code only calls it when the list has at least 2 elements). -/
def sampleVariance (l : List ℚ) : ℚ :=
  let m := listMean l
  (l.map (fun x => (x - m) ^ 2)).sum / ((l.length : ℚ) - 1)

/-- `statistics.stdev(pcs) if len(pcs) > 1 else 0`, recorded by its
square: `stdev l = Real.sqrt (sampleVariance l)`, so the code's
`volatility_stdev` is zero exactly when this is. The `else 0` branch is
taken verbatim from the code. -/
def volatilitySqOf (l : List ℚ) : ℚ :=
  if l.length > 1 then sampleVariance l else 0

/-- `statistics.variance(pcs) if len(pcs) > 1 else 0` (src/core/price_tracker.py
line 121). -/
def varianceOf (l : List ℚ) : ℚ :=
  if l.length > 1 then sampleVariance l else 0

/-- The `analytics` dict computed by `_save_tracking_session` when
`len(price_data) > 1` (src/core/price_tracker.py lines 96-177), minus the
calendar-derived fields (`session_start_hour`, `session_start_weekday`)
which need a datetime library. `percent_changes` keeps the intermediate
step-change list the volatility and move counts are computed from. -/
structure Analytics where
  final_price : ℚ
  max_price : ℚ
  min_price : ℚ
  avg_price : ℚ
  price_range : ℚ
  final_change_percent : ℚ
  max_change_percent : ℚ
  min_change_percent : ℚ
  avg_change_percent : ℚ
  total_change_range : ℚ
  percent_changes : List ℚ
  volatility_sq : ℚ
  variance : ℚ
  price_movements_count : ℕ
  avg_absolute_change : ℚ
  positive_moves : ℕ
  negative_moves : ℕ
  neutral_moves : ℕ
  positive_move_ratio : ℚ
  trend_direction : String
  total_data_points : ℕ
  actual_duration : ℚ
  data_frequency : ℚ
  alert_magnitude : ℚ
  alert_direction : ℤ
  monitoring_window_minutes : ℚ
  initial_price_level : String
deriving DecidableEq, Repr

/-- The analytics computation of `_save_tracking_session`: `some`
analytics when `len(price_data) > 1`, `none` otherwise (the code then
skips the whole `analytics` / `summary` block and saves the raw session). -/
def computeAnalytics (info : TrackingInfo) : Option Analytics :=
  if info.price_data.length > 1 then
    let prices := info.price_data.map (·.2)
    let initial_price := info.initial_price
    let final_price := prices.getLastD 0
    let max_price := listMax prices
    let min_price := listMin prices
    let avg_price := listMean prices
    let final_change := (final_price - initial_price) / initial_price * 100
    let max_change := (max_price - initial_price) / initial_price * 100
    let min_change := (min_price - initial_price) / initial_price * 100
    let avg_change := (avg_price - initial_price) / initial_price * 100
    let percent_changes := stepChanges prices
    let duration := (info.price_data.map (·.1)).getLastD 0 - info.start_time
    some
      { final_price := final_price
        max_price := max_price
        min_price := min_price
        avg_price := avg_price
        price_range := max_price - min_price
        final_change_percent := final_change
        max_change_percent := max_change
        min_change_percent := min_change
        avg_change_percent := avg_change
        total_change_range := max_change - min_change
        percent_changes := percent_changes
        volatility_sq := volatilitySqOf percent_changes
        variance := varianceOf percent_changes
        price_movements_count := percent_changes.length
        avg_absolute_change :=
          if percent_changes ≠ [] then
            (percent_changes.map (|·|)).sum / percent_changes.length
          else 0
        positive_moves := (percent_changes.filter (fun c => 0 < c)).length
        negative_moves := (percent_changes.filter (fun c => c < 0)).length
        neutral_moves := (percent_changes.filter (fun c => c = 0)).length
        positive_move_ratio :=
          if percent_changes ≠ [] then
            ((percent_changes.filter (fun c => 0 < c)).length : ℚ) /
              percent_changes.length
          else 0
        trend_direction :=
          if 0 < final_change then ("bullish")
          else if final_change < 0 then ("bearish") else ("neutral")
        total_data_points := info.price_data.length
        actual_duration := duration
        data_frequency :=
          if info.price_data.length > 1 then
            duration / info.price_data.length
          else 0
        alert_magnitude := info.threshold_value
        alert_direction := if info.threshold_type = ("up") then 1 else -1
        monitoring_window_minutes := info.window_minutes
        initial_price_level :=
          if avg_price < initial_price then ("high") else ("low") }
  else none

/-- A finalized session as written to disk by `_save_tracking_session`:
the raw tracking info plus its analytics when there were enough samples. -/
structure SavedSession where
  info : TrackingInfo
  analytics : Option Analytics
deriving DecidableEq, Repr

/-- `_save_tracking_session` (src/core/price_tracker.py lines 89-208):
computes analytics (when possible) and persists the session record. -/
def saveTrackingSession (info : TrackingInfo) : SavedSession :=
  { info := info, analytics := computeAnalytics info }

/-- The per-session body of the `update_tracking_data` loop
(src/core/price_tracker.py lines 59-82): a session past its `end_time`
is finalized and marked completed; otherwise it gains the sample
`(now, price)` whenever the feed snapshot has its symbol. Completed
sessions are removed after the loop; finalized records are emitted in
iteration order. -/
def updateSessions (now : ℚ) (prices : List (String × ℚ)) :
    List (String × TrackingInfo) →
    List (String × TrackingInfo) × List SavedSession
  | [] => ([], [])
  | (sym, info) :: rest =>
      if info.end_time ≤ now then
        let r := updateSessions now prices rest
        (r.1, saveTrackingSession info :: r.2)
      else
        let info' :=
          match dictGet prices sym with
          | some p => { info with price_data := info.price_data ++ [(now, p)] }
          | none => info
        let r := updateSessions now prices rest
        ((sym, info') :: r.1, r.2)

/-- `PriceTracker.update_tracking_data` (src/core/price_tracker.py lines
47-87). The code returns immediately when there are no active sessions
(before fetching) and again when its own fetch comes back empty; `prices`
is the result of that fetch. -/
def update_tracking_data (now : ℚ) (prices : List (String × ℚ))
    (trk : PriceTracker) : PriceTracker × List SavedSession :=
  if trk.tracking_sessions = [] then (trk, [])
  else if prices = [] then (trk, [])
  else
    let res := updateSessions now prices trk.tracking_sessions
    ({ tracking_sessions := res.1 }, res.2)

/-- Per-instrument configuration read from the state file
(`config.get(...)` in src/core/monitor.py lines 47-50). -/
structure Config where
  enabled : Bool
  threshold : ℚ
  window_minutes : ℚ
  alert_on_up : Bool
  alert_on_down : Bool
deriving DecidableEq, Repr

/-- An alert notification sent through the Telegram bot, reduced to its
data content: direction, symbol, the percentage in the message text (the
fall message formats `abs(percentage_change)`), and the window length. -/
inductive AlertMsg where
  | rise (symbol : String) (pct : ℚ) (window : ℚ)
  | fall (symbol : String) (pct : ℚ) (window : ℚ)
deriving DecidableEq, Repr

/-- Age-based eviction of the sample window (src/core/monitor.py line 61):
`history[symbol] = [(t, p) for t, p in history[symbol] if t >= cutoff]`
with `cutoff = now - timedelta(minutes=window)`. -/
def pruneWindow (now window : ℚ) (l : List (ℚ × ℚ)) : List (ℚ × ℚ) :=
  l.filter (fun s => now - window ≤ s.1)

/-- `percentage_change = ((price - oldest_price) / oldest_price) * 100`
(src/core/monitor.py lines 67-68) where `oldest_price` is the price of
the first surviving sample. -/
def pctChange (price : ℚ) (pruned : List (ℚ × ℚ)) : ℚ :=
  (price - (pruned.headD (0, 0)).2) / (pruned.headD (0, 0)).2 * 100

/-- Result of one symbol's pass through the monitor loop body. -/
structure StepResult where
  history : List (ℚ × ℚ)
  tracker : PriceTracker
  alerts : List AlertMsg
deriving DecidableEq, Repr

/-- The rise condition `alert_up and percentage_change >= threshold`
(src/core/monitor.py line 70). -/
def firedUp (cfg : Config) (pct : ℚ) : Bool :=
  cfg.alert_on_up && decide (cfg.threshold ≤ pct)

/-- The fall condition `alert_down and percentage_change <= -threshold`
(src/core/monitor.py line 80). Both conditions are evaluated on the same
`percentage_change`, computed once before either branch runs. -/
def firedDown (cfg : Config) (pct : ℚ) : Bool :=
  cfg.alert_on_down && decide (pct ≤ -cfg.threshold)

/-- The monitor loop body for one symbol with a price available
(src/core/monitor.py lines 59-90): append `(now, price)`, prune by age,
bail out if the window emptied, compute the percentage change against the
oldest survivor, then run the rise branch and the fall branch in that
order. Each branch sends its notification, starts tracking under the
`is_tracking` guard, and resets the window to the single triggering
sample; the fall branch reuses the `percentage_change` computed before
the rise branch's reset. -/
def processSymbol (now : ℚ) (symbol : String) (cfg : Config) (price : ℚ)
    (hist : List (ℚ × ℚ)) (trk : PriceTracker) : StepResult :=
  let pruned := pruneWindow now cfg.window_minutes (hist ++ [(now, price)])
  if pruned = [] then { history := pruned, tracker := trk, alerts := [] }
  else
    let pct := pctChange price pruned
    let trk₁ :=
      if firedUp cfg pct then
        guardedStart now symbol price ("up") pct cfg.window_minutes trk
      else trk
    let trk₂ :=
      if firedDown cfg pct then
        guardedStart now symbol price ("down") |pct| cfg.window_minutes trk₁
      else trk₁
    { history :=
        if firedUp cfg pct || firedDown cfg pct then [(now, price)] else pruned
      tracker := trk₂
      alerts :=
        (if firedUp cfg pct then [AlertMsg.rise symbol pct cfg.window_minutes]
         else []) ++
          (if firedDown cfg pct then
            [AlertMsg.fall symbol |pct| cfg.window_minutes]
           else []) }

/-- The `for symbol, config in state.items()` loop (src/core/monitor.py
lines 39-90): disabled symbols and symbols missing from the snapshot are
skipped (their window state untouched); alerts accumulate in iteration
order. -/
def processSymbols (now : ℚ) (prices : List (String × ℚ)) :
    List (String × Config) → List (String × List (ℚ × ℚ)) → PriceTracker →
    List (String × List (ℚ × ℚ)) × PriceTracker × List AlertMsg
  | [], hist, trk => (hist, trk, [])
  | (sym, cfg) :: rest, hist, trk =>
      if cfg.enabled = false then processSymbols now prices rest hist trk
      else
        match dictGet prices sym with
        | none => processSymbols now prices rest hist trk
        | some price =>
            let r := processSymbol now sym cfg price
              ((dictGet hist sym).getD []) trk
            let rest' :=
              processSymbols now prices rest (dictSet hist sym r.history)
                r.tracker
            (rest'.1, rest'.2.1, r.alerts ++ rest'.2.2)

/-- The monitor loop's mutable state: the configuration snapshot (loaded
once before the loop), the per-symbol sample windows, and the price
tracker. -/
structure MonitorState where
  state : List (String × Config)
  history : List (String × List (ℚ × ℚ))
  tracker : PriceTracker
deriving DecidableEq, Repr

/-- What one tick produces: the next state, the notifications sent, the
finalized sessions persisted, and how many feed fetch calls were made. -/
structure TickResult where
  st : MonitorState
  alerts : List AlertMsg
  saved : List SavedSession
  fetchCalls : ℕ
deriving DecidableEq, Repr

/-- One iteration of the `while True` monitor loop (src/core/monitor.py
lines 17-92), `test_mode = False`. `feed n` is the result of the
`(n+1)`-th call to `get_all_futures_prices` during this tick: the loop
itself fetches first (`feed 0`); if that is empty the tick is skipped;
otherwise `update_tracking_data` runs, performing its own second fetch
(`feed 1`) whenever it has active sessions, and then every configured
symbol goes through the detector using the first snapshot. -/
def monitorTick (now : ℚ) (feed : ℕ → List (String × ℚ))
    (st : MonitorState) : TickResult :=
  let prices := feed 0
  if prices = [] then { st := st, alerts := [], saved := [], fetchCalls := 1 }
  else
    let trackerFetches : ℕ :=
      if st.tracker.tracking_sessions = [] then 0 else 1
    let trackerPrices :=
      if st.tracker.tracking_sessions = [] then [] else feed 1
    let upd := update_tracking_data now trackerPrices st.tracker
    let res := processSymbols now prices st.state st.history upd.1
    { st := { st with history := res.1, tracker := res.2.1 }
      alerts := res.2.2
      saved := upd.2
      fetchCalls := 1 + trackerFetches }

/-- The session of the spec's worked analytics example: recorded prices
100, 110, 105 (timestamps 0, 1, 2 minutes), initial price 100. -/
def exampleSession : TrackingInfo :=
  { symbol := "BTCUSDT"
    start_time := 0
    end_time := 60
    initial_price := 100
    threshold_type := "up"
    threshold_value := 6
    window_minutes := 15
    price_data := [(0, 100), (1, 110), (2, 105)]
    session_id := "BTCUSDT_0" }

/-- A monitor state with one active tracking session (started at time 0)
and one configured symbol whose threshold is too high to fire; used to
observe the tick's fetch behaviour. -/
def twoFetchState : MonitorState :=
  { state := [("BTCUSDT",
      { enabled := true
        threshold := 1000
        window_minutes := 15
        alert_on_up := true
        alert_on_down := true })]
    history := [("BTCUSDT", [])]
    tracker := start_tracking 0 ("BTCUSDT") 100 ("up") 6 15 ⟨[]⟩ }

/-- A feed whose first fetch of the tick reports price 100 and whose
second reports 999 for the same symbol. -/
def twoFetchFeed : ℕ → List (String × ℚ) :=
  fun n => if n = 0 then [("BTCUSDT", 100)] else [("BTCUSDT", 999)]

theorem dictGet_dictSet_self {α : Type} (m : List (String × α)) (k : String)
    (v : α) : dictGet (dictSet m k v) k = some v := by
  induction m with
  | nil => simp [dictSet, dictGet]
  | cons hd tl ih =>
      obtain ⟨k₁, v₁⟩ := hd
      by_cases h : k₁ = k
      · subst h
        simp [dictSet, dictGet]
      · simp [dictSet, dictGet, h, ih]

theorem is_tracking_start (now : ℚ) (symbol : String) (p : ℚ) (tt : String)
    (tv w : ℚ) (trk : PriceTracker) :
    is_tracking (start_tracking now symbol p tt tv w trk) symbol = true := by
  simp [is_tracking, start_tracking, dictGet_dictSet_self]

theorem mem_pruneWindow {now w : ℚ} {l : List (ℚ × ℚ)} {tp : ℚ × ℚ}
    (h : tp ∈ pruneWindow now w l) : now - w ≤ tp.1 ∧ tp ∈ l := by
  unfold pruneWindow at h
  rw [List.mem_filter] at h
  simpa [and_comm] using h

theorem pruneWindow_append_single (now w price : ℚ) (hist : List (ℚ × ℚ)) :
    pruneWindow now w (hist ++ [(now, price)]) =
      pruneWindow now w hist ++ (if 0 ≤ w then [(now, price)] else []) := by
  unfold pruneWindow
  rw [List.filter_append]
  congr 1
  by_cases h : 0 ≤ w
  · rw [if_pos h]
    simp [sub_le_self_iff, h]
  · rw [if_neg h]
    simp [sub_le_self_iff, h]

theorem pruneWindow_append_empty_of_neg (now w price : ℚ)
    (hist : List (ℚ × ℚ)) (hts : ∀ tp ∈ hist, tp.1 ≤ now) (hw : ¬ 0 ≤ w) :
    pruneWindow now w (hist ++ [(now, price)]) = [] := by
  rw [pruneWindow_append_single, if_neg hw, List.append_nil]
  unfold pruneWindow
  rw [List.filter_eq_nil_iff]
  intro tp htp
  have h1 := hts tp htp
  simp only [decide_eq_true_eq]
  intro h2
  exact hw (by linarith)

theorem pruneWindow_append_getLast (now w price : ℚ) (hist : List (ℚ × ℚ))
    (hts : ∀ tp ∈ hist, tp.1 ≤ now)
    (hne : pruneWindow now w (hist ++ [(now, price)]) ≠ []) :
    (pruneWindow now w (hist ++ [(now, price)])).getLastD (0, 0) =
      (now, price) ∧ 0 ≤ w := by
  by_cases hw : 0 ≤ w
  · refine ⟨?_, hw⟩
    rw [pruneWindow_append_single, if_pos hw]
    exact List.getLastD_concat _ _ _
  · exact absurd (pruneWindow_append_empty_of_neg now w price hist hts hw) hne

/-- Claim C1, counterexample: `start_tracking` called for a symbol that
already has an active session is not a no-op — it overwrites the
session. Starting tracking of BTCUSDT at price 100, then calling
`start_tracking` again at price 200, yields a session whose
`initial_price` is 200, not the original 100, and a tracker state
different from the original. -/
theorem start_tracking_overwrites_counterexample :
    (dictGet (start_tracking 5 ("BTCUSDT") 200 ("up") 7 15
        (start_tracking 0 ("BTCUSDT") 100 ("up") 6 15
          ⟨[]⟩)).tracking_sessions
      ("BTCUSDT")).map TrackingInfo.initial_price = some 200 ∧
    (dictGet (start_tracking 0 ("BTCUSDT") 100 ("up") 6 15
        ⟨[]⟩).tracking_sessions
      ("BTCUSDT")).map TrackingInfo.initial_price = some 100 ∧
    start_tracking 5 ("BTCUSDT") 200 ("up") 7 15
        (start_tracking 0 ("BTCUSDT") 100 ("up") 6 15 ⟨[]⟩) ≠
      start_tracking 0 ("BTCUSDT") 100 ("up") 6 15 ⟨[]⟩ := by
  decide

/-- Claim C1, amended: the at-most-one-active-session invariant is
enforced by the caller, not inside `start_tracking`. The monitor's call
site guards every start with `is_tracking` (`guardedStart`), and that
guarded call is a no-op when a session is already active — while a bare
`start_tracking` unconditionally installs a fresh session record. -/
theorem guardedStart_noop_of_tracking (now : ℚ) (symbol : String) (p : ℚ)
    (tt : String) (tv w : ℚ) (trk : PriceTracker)
    (h : is_tracking trk symbol = true) :
    guardedStart now symbol p tt tv w trk = trk ∧
    dictGet (start_tracking now symbol p tt tv w trk).tracking_sessions
        symbol = some (mkTrackingInfo now symbol p tt tv w) := by
  constructor
  · simp [guardedStart, h]
  · exact dictGet_dictSet_self _ _ _

/-- Witness for the amended claim C1 at a concrete state with an active
BTCUSDT session. -/
theorem guardedStart_noop_of_tracking_witness :
    guardedStart 5 ("BTCUSDT") 200 ("up") 7 15
        (start_tracking 0 ("BTCUSDT") 100 ("up") 6 15 ⟨[]⟩) =
      start_tracking 0 ("BTCUSDT") 100 ("up") 6 15 ⟨[]⟩ ∧
    dictGet (start_tracking 5 ("BTCUSDT") 200 ("up") 7 15
        (start_tracking 0 ("BTCUSDT") 100 ("up") 6 15
          ⟨[]⟩)).tracking_sessions ("BTCUSDT") =
      some (mkTrackingInfo 5 ("BTCUSDT") 200 ("up") 7 15) :=
  guardedStart_noop_of_tracking 5 ("BTCUSDT") 200 ("up") 7 15
    (start_tracking 0 ("BTCUSDT") 100 ("up") 6 15 ⟨[]⟩) (by decide)

/-- Claim C8: a tick on which the feed's first fetch returns the empty
mapping (the Python function's result on both empty payloads and network
failure) is a full no-op: state — every sample window and every active
session — is unchanged, no notification is sent, nothing is persisted,
and only that one fetch call is made. -/
theorem emptyFeed_tick_noop (now : ℚ) (feed : ℕ → List (String × ℚ))
    (st : MonitorState) (h : feed 0 = []) :
    monitorTick now feed st =
      { st := st, alerts := [], saved := [], fetchCalls := 1 } := by
  simp [monitorTick, h]

/-- Witness for claim C8 with a concretely empty feed and a nontrivial
state. -/
theorem emptyFeed_tick_noop_witness :
    monitorTick 3 (fun _ => []) twoFetchState =
      { st := twoFetchState, alerts := [], saved := [], fetchCalls := 1 } :=
  emptyFeed_tick_noop 3 (fun _ => []) twoFetchState rfl

/-- Claim C10: `update_tracking_data` returns as soon as its own price
fetch comes back empty (and also when it has no sessions, in which case
it never fetches), leaving every session — including sessions whose
`end_time` has already passed — unfinalized, unsaved and still active;
finalization waits for a tick whose fetch succeeds. -/
theorem update_tracking_data_empty_fetch_noop (now : ℚ)
    (trk : PriceTracker) : update_tracking_data now [] trk = (trk, []) := by
  by_cases h : trk.tracking_sessions = [] <;> simp [update_tracking_data, h]

theorem processSymbol_history_cases (now : ℚ) (symbol : String)
    (cfg : Config) (price : ℚ) (hist : List (ℚ × ℚ)) (trk : PriceTracker) :
    (processSymbol now symbol cfg price hist trk).history =
        pruneWindow now cfg.window_minutes (hist ++ [(now, price)]) ∨
      ((processSymbol now symbol cfg price hist trk).history = [(now, price)] ∧
        pruneWindow now cfg.window_minutes (hist ++ [(now, price)]) ≠ []) := by
  unfold processSymbol
  by_cases hemp :
      pruneWindow now cfg.window_minutes (hist ++ [(now, price)]) = []
  · rw [if_pos hemp]
    left
    rfl
  · rw [if_neg hemp]
    by_cases hf :
        (firedUp cfg (pctChange price
            (pruneWindow now cfg.window_minutes (hist ++ [(now, price)]))) ||
          firedDown cfg (pctChange price
            (pruneWindow now cfg.window_minutes
              (hist ++ [(now, price)])))) = true
    · right
      exact ⟨by simp [hf], hemp⟩
    · left
      simp [hf]

/-- Claim C4: after the per-tick append-and-prune step, every sample
still in the window is no older than `now − window` (and no newer than
`now`), provided all samples entering the step were stamped at or before
`now` — which holds along any run with non-decreasing tick times, since
samples are only ever stamped with the current tick's `now`. The bound
also survives the post-alert reset to the single sample `(now, price)`. -/
theorem window_pruned_within (now : ℚ) (symbol : String) (cfg : Config)
    (price : ℚ) (hist : List (ℚ × ℚ)) (trk : PriceTracker)
    (hts : ∀ tp ∈ hist, tp.1 ≤ now) :
    ∀ tp ∈ (processSymbol now symbol cfg price hist trk).history,
      now - cfg.window_minutes ≤ tp.1 ∧ tp.1 ≤ now := by
  intro tp htp
  rcases processSymbol_history_cases now symbol cfg price hist trk with
    hcase | ⟨hcase, hne⟩
  · rw [hcase] at htp
    obtain ⟨h1, h2⟩ := mem_pruneWindow htp
    refine ⟨h1, ?_⟩
    rcases List.mem_append.mp h2 with h3 | h3
    · exact hts tp h3
    · simp at h3
      rw [h3]
  · rw [hcase] at htp
    simp at htp
    obtain ⟨-, hw⟩ :=
      pruneWindow_append_getLast now cfg.window_minutes price hist hts hne
    rw [htp]
    exact ⟨by simpa [sub_le_self_iff] using hw, le_refl now⟩

/-- Witness for claim C4: a tick at time 1 on a window holding one
sample from time 0, with a 15-minute window. -/
theorem window_pruned_within_witness :
    (1 : ℚ) - (15 : ℚ) ≤ ((1 : ℚ), (106 : ℚ)).1 ∧
      ((1 : ℚ), (106 : ℚ)).1 ≤ 1 := by
  apply window_pruned_within 1 ("BTCUSDT") ⟨true, 5, 15, true, true⟩ 106
    [(0, 100)] ⟨[]⟩
  · intro tp htp
    simp at htp
    rw [htp]
    norm_num
  · have h : (processSymbol 1 ("BTCUSDT") ⟨true, 5, 15, true, true⟩ 106
        [(0, 100)] ⟨[]⟩).history = [(1, 106)] := by
      norm_num [processSymbol, pruneWindow, pctChange, firedUp, firedDown,
        guardedStart, is_tracking, dictGet, start_tracking, mkTrackingInfo,
        dictSet]
      simp
    rw [h]
    simp

/-- Claim C5: whenever the window is non-empty after append-and-prune,
the detector's `percentage_change` equals
`(newest price − oldest price) / oldest price * 100` — the sample just
appended is the newest survivor — and a singleton window yields
`has_data` (non-emptiness) with a percentage change of exactly 0. Sample
timestamps entering the step are assumed stamped at or before `now`, as
along any run with non-decreasing tick times. -/
theorem pct_change_formula (now w price : ℚ) (hist : List (ℚ × ℚ))
    (hts : ∀ tp ∈ hist, tp.1 ≤ now) :
    (pruneWindow now w (hist ++ [(now, price)]) ≠ [] →
      pctChange price (pruneWindow now w (hist ++ [(now, price)])) =
        (((pruneWindow now w (hist ++ [(now, price)])).getLastD (0, 0)).2 -
            ((pruneWindow now w (hist ++ [(now, price)])).headD (0, 0)).2) /
          ((pruneWindow now w (hist ++ [(now, price)])).headD (0, 0)).2 *
          100) ∧
    ((pruneWindow now w (hist ++ [(now, price)])).length = 1 →
      pruneWindow now w (hist ++ [(now, price)]) ≠ [] ∧
      pctChange price (pruneWindow now w (hist ++ [(now, price)])) = 0) := by
  constructor
  · intro hne
    obtain ⟨hlast, -⟩ := pruneWindow_append_getLast now w price hist hts hne
    rw [hlast]
    rfl
  · intro hlen
    obtain ⟨a, ha⟩ := List.length_eq_one.mp hlen
    have hne : pruneWindow now w (hist ++ [(now, price)]) ≠ [] := by
      rw [ha]
      simp
    obtain ⟨hlast, -⟩ := pruneWindow_append_getLast now w price hist hts hne
    rw [ha] at hlast
    simp at hlast
    refine ⟨hne, ?_⟩
    rw [ha, hlast]
    simp [pctChange]

/-- Witness for claim C5: the singleton window produced by the very
first tick of a fresh symbol has `pct_change = 0` and counts as data. -/
theorem pct_change_formula_witness :
    pctChange 100 (pruneWindow 0 15 ([] ++ [((0 : ℚ), (100 : ℚ))])) = 0 ∧
    pruneWindow 0 15 ([] ++ [((0 : ℚ), (100 : ℚ))]) ≠ [] := by
  have h := (pct_change_formula 0 15 100 [] (by simp)).2
    (by norm_num [pruneWindow])
  exact ⟨h.2, h.1⟩

/-- Claim C3: immediately after any alert fires (rise, fall, or both),
the instrument's window holds exactly the single sample
`(now, triggering price)`; and re-running the detector step on that reset
window with the same price produces no further alert, for any positive
threshold (the configuration contract requires `threshold_pct > 0`; with
a degenerate `threshold ≤ 0` a single-sample window's `pct_change = 0`
would cross the threshold again). -/
theorem alert_resets_window (now : ℚ) (symbol : String) (cfg : Config)
    (price : ℚ) (hist : List (ℚ × ℚ)) (trk : PriceTracker)
    (hfired : (processSymbol now symbol cfg price hist trk).alerts ≠ []) :
    (processSymbol now symbol cfg price hist trk).history = [(now, price)] ∧
    (0 < cfg.threshold → ∀ trk' : PriceTracker,
      (processSymbol now symbol cfg price [(now, price)] trk').alerts =
        []) := by
  constructor
  · unfold processSymbol at hfired ⊢
    by_cases hemp :
        pruneWindow now cfg.window_minutes (hist ++ [(now, price)]) = []
    · rw [if_pos hemp] at hfired
      exact absurd rfl hfired
    · rw [if_neg hemp] at hfired ⊢
      by_cases hU : firedUp cfg (pctChange price
          (pruneWindow now cfg.window_minutes (hist ++ [(now, price)]))) =
          true
      · simp [hU]
      · by_cases hD : firedDown cfg (pctChange price
            (pruneWindow now cfg.window_minutes (hist ++ [(now, price)]))) =
            true
        · simp [hU, hD]
        · exact absurd (by simp [hU, hD]) hfired
  · intro hthr trk'
    by_cases hw : 0 ≤ cfg.window_minutes
    · have hp : pruneWindow now cfg.window_minutes
          ([(now, price)] ++ [(now, price)]) =
          [(now, price), (now, price)] := by
        simp [pruneWindow, sub_le_self_iff, hw]
      have hpct : pctChange price [(now, price), (now, price)] = 0 := by
        simp [pctChange]
      have hU : firedUp cfg (0 : ℚ) = false := by
        simp [firedUp, not_le.mpr hthr]
      have hD : firedDown cfg (0 : ℚ) = false := by
        have : ¬ (0 : ℚ) ≤ -cfg.threshold := by
          simp
          linarith
        simp [firedDown, this]
      unfold processSymbol
      rw [hp]
      rw [if_neg (by simp)]
      simp [hpct, hU, hD]
    · have hp : pruneWindow now cfg.window_minutes
          ([(now, price)] ++ [(now, price)]) = [] := by
        apply pruneWindow_append_empty_of_neg now cfg.window_minutes price
          [(now, price)] _ hw
        intro tp htp
        simp at htp
        rw [htp]
      unfold processSymbol
      rw [hp]
      rw [if_pos rfl]

/-- Witness for claim C3: a tick that fires a rise alert (price 100 →
106 inside a 15-minute window at threshold 5) resets the window to the
triggering sample, and the reset window does not re-fire. -/
theorem alert_resets_window_witness :
    (processSymbol 1 ("BTCUSDT") ⟨true, 5, 15, true, true⟩ 106
        [(0, 100)] ⟨[]⟩).history = [(1, 106)] ∧
    (processSymbol 1 ("BTCUSDT") ⟨true, 5, 15, true, true⟩ 106
        [(1, 106)] ⟨[]⟩).alerts = [] := by
  have h := alert_resets_window 1 ("BTCUSDT") ⟨true, 5, 15, true, true⟩ 106
    [(0, 100)] ⟨[]⟩
    (by
      norm_num [processSymbol, pruneWindow, pctChange, firedUp, firedDown,
        guardedStart, is_tracking, dictGet, start_tracking, mkTrackingInfo,
        dictSet]
      simp)
  exact ⟨h.1, h.2 (by norm_num) ⟨[]⟩⟩

/-- Claim C9: when the rise and fall conditions both hold on one tick
(possible only for `threshold ≤ 0`) for an instrument with no active
session, the rise branch runs first and starts the session, so the fall
branch's `is_tracking` guard suppresses a second start: exactly one
session is created and its direction is `up`, while both notifications
go out in rise-then-fall order. -/
theorem both_alerts_single_up_session (now : ℚ) (symbol : String)
    (cfg : Config) (price : ℚ) (hist : List (ℚ × ℚ)) (trk : PriceTracker)
    (hne : pruneWindow now cfg.window_minutes (hist ++ [(now, price)]) ≠ [])
    (hU : firedUp cfg (pctChange price
      (pruneWindow now cfg.window_minutes (hist ++ [(now, price)]))) = true)
    (hD : firedDown cfg (pctChange price
      (pruneWindow now cfg.window_minutes (hist ++ [(now, price)]))) = true)
    (htrk : is_tracking trk symbol = false) :
    (processSymbol now symbol cfg price hist trk).alerts =
      [AlertMsg.rise symbol (pctChange price
          (pruneWindow now cfg.window_minutes (hist ++ [(now, price)])))
        cfg.window_minutes,
       AlertMsg.fall symbol |pctChange price
          (pruneWindow now cfg.window_minutes (hist ++ [(now, price)]))|
        cfg.window_minutes] ∧
    (processSymbol now symbol cfg price hist trk).tracker =
      start_tracking now symbol price ("up")
        (pctChange price
          (pruneWindow now cfg.window_minutes (hist ++ [(now, price)])))
        cfg.window_minutes trk ∧
    (dictGet (processSymbol now symbol cfg price hist
          trk).tracker.tracking_sessions symbol).map
        TrackingInfo.threshold_type = some ("up") := by
  have htrk1 : (processSymbol now symbol cfg price hist trk).tracker =
      start_tracking now symbol price ("up")
        (pctChange price
          (pruneWindow now cfg.window_minutes (hist ++ [(now, price)])))
        cfg.window_minutes trk := by
    unfold processSymbol
    rw [if_neg hne]
    simp only [hU, hD, if_pos rfl]
    simp [guardedStart, htrk, is_tracking_start]
  refine ⟨?_, htrk1, ?_⟩
  · unfold processSymbol
    rw [if_neg hne]
    simp [hU, hD]
  · rw [htrk1]
    unfold start_tracking
    simp [dictGet_dictSet_self, mkTrackingInfo]

/-- Witness for claim C9, at the degenerate threshold 0 with a flat
price: both branches fire on `pct_change = 0`. -/
theorem both_alerts_single_up_session_witness :
    (processSymbol 0 ("BTCUSDT") ⟨true, 0, 15, true, true⟩ 100
        [(0, 100)] ⟨[]⟩).alerts =
      [AlertMsg.rise ("BTCUSDT") (pctChange 100
          (pruneWindow 0 15 ([(0, 100)] ++ [(0, 100)]))) 15,
       AlertMsg.fall ("BTCUSDT") |pctChange 100
          (pruneWindow 0 15 ([(0, 100)] ++ [(0, 100)]))| 15] ∧
    (processSymbol 0 ("BTCUSDT") ⟨true, 0, 15, true, true⟩ 100
        [(0, 100)] ⟨[]⟩).tracker =
      start_tracking 0 ("BTCUSDT") 100 ("up")
        (pctChange 100 (pruneWindow 0 15 ([(0, 100)] ++ [(0, 100)]))) 15
        ⟨[]⟩ ∧
    (dictGet (processSymbol 0 ("BTCUSDT") ⟨true, 0, 15, true, true⟩ 100
          [(0, 100)] ⟨[]⟩).tracker.tracking_sessions ("BTCUSDT")).map
        TrackingInfo.threshold_type = some ("up") :=
  both_alerts_single_up_session 0 ("BTCUSDT") ⟨true, 0, 15, true, true⟩ 100
    [(0, 100)] ⟨[]⟩
    (by
      norm_num [pruneWindow]
      simp)
    (by norm_num [firedUp, pctChange, pruneWindow])
    (by norm_num [firedDown, pctChange, pruneWindow])
    (by decide)

/-- Claim C6: finalizing the session whose recorded prices are exactly
100, 110, 105 (initial price 100) yields final change 5%, max change 10%,
min change 0% (the initial sample is part of the extrema), step changes
`[+10%, −50/11 % = −4.5454…%]`, one positive and one negative move, and a
bullish trend label; and the volatility (the sample standard deviation of
the step changes, recorded here by its square) is 0 whenever there are
fewer than 2 steps. -/
theorem session_analytics_example :
    (computeAnalytics exampleSession).map Analytics.final_change_percent =
      some 5 ∧
    (computeAnalytics exampleSession).map Analytics.max_change_percent =
      some 10 ∧
    (computeAnalytics exampleSession).map Analytics.min_change_percent =
      some 0 ∧
    (computeAnalytics exampleSession).map Analytics.percent_changes =
      some [10, -50 / 11] ∧
    (computeAnalytics exampleSession).map Analytics.positive_moves =
      some 1 ∧
    (computeAnalytics exampleSession).map Analytics.negative_moves =
      some 1 ∧
    (computeAnalytics exampleSession).map Analytics.trend_direction =
      some ("bullish") ∧
    ∀ l : List ℚ, l.length < 2 → volatilitySqOf l = 0 := by
  refine ⟨?_, ?_, ?_, ?_, ?_, ?_, ?_, ?_⟩
  · norm_num [computeAnalytics, exampleSession, listMax, listMin, listMean,
      stepChanges]
  · norm_num [computeAnalytics, exampleSession, listMax, listMin, listMean,
      stepChanges]
  · norm_num [computeAnalytics, exampleSession, listMax, listMin, listMean,
      stepChanges]
  · norm_num [computeAnalytics, exampleSession, listMax, listMin, listMean,
      stepChanges]
  · norm_num [computeAnalytics, exampleSession, listMax, listMin, listMean,
      stepChanges]
  · norm_num [computeAnalytics, exampleSession, listMax, listMin, listMean,
      stepChanges]
  · norm_num [computeAnalytics, exampleSession, listMax, listMin, listMean,
      stepChanges]
  · intro l hl
    rw [volatilitySqOf, if_neg (by omega)]

/-- Witness for the hypothesis-bearing conjunct of claim C6: a
single-step change list has zero volatility. -/
theorem session_analytics_example_witness :
    volatilitySqOf [(5 : ℚ)] = 0 :=
  session_analytics_example.2.2.2.2.2.2.2 [(5 : ℚ)] (by simp)

/-- Claim C7: a session whose recorded `price_data` has fewer than 2
entries finalizes without error into a record with no analytics
populated; it is still saved and removed from the active set. (In the
embedding the absence of a division-by-zero or statistics error is the
totality of `computeAnalytics`, whose `len(price_data) > 1` guard skips
every derived quantity.) -/
theorem short_session_finalizes_empty (now : ℚ)
    (prices : List (String × ℚ)) (sym : String) (info : TrackingInfo)
    (hne : prices ≠ []) (hend : info.end_time ≤ now)
    (hshort : info.price_data.length < 2) :
    update_tracking_data now prices ⟨[(sym, info)]⟩ =
      (⟨[]⟩, [saveTrackingSession info]) ∧
    (saveTrackingSession info).analytics = none := by
  constructor
  · unfold update_tracking_data
    rw [if_neg (by simp), if_neg hne]
    simp [updateSessions, hend]
  · unfold saveTrackingSession computeAnalytics
    rw [if_neg (by omega)]

/-- Witness for claim C7: a session started at time 0 holding only its
initial sample, finalized by a tick at time 61 with a successful fetch. -/
theorem short_session_finalizes_empty_witness :
    update_tracking_data 61 [("BTCUSDT", 100)]
        ⟨[(("BTCUSDT"), mkTrackingInfo 0 ("BTCUSDT") 100 ("up") 6 15)]⟩ =
      (⟨[]⟩, [saveTrackingSession (mkTrackingInfo 0 ("BTCUSDT") 100 ("up")
        6 15)]) ∧
    (saveTrackingSession (mkTrackingInfo 0 ("BTCUSDT") 100 ("up")
        6 15)).analytics = none :=
  short_session_finalizes_empty 61 [("BTCUSDT", 100)] ("BTCUSDT")
    (mkTrackingInfo 0 ("BTCUSDT") 100 ("up") 6 15)
    (by simp)
    (by norm_num [mkTrackingInfo])
    (by norm_num [mkTrackingInfo])

/-- Claim C2, counterexample: a tick does not share a single feed result
between detector and tracker. With one active session, the tick at time 1
makes two fetch calls; the first reports price 100 and the second 999,
and the tracker appends the second snapshot's 999 while the detector's
window records the first snapshot's 100 — the two components observe
different prices in the same tick. -/
theorem double_fetch_counterexample :
    (monitorTick 1 twoFetchFeed twoFetchState).fetchCalls = 2 ∧
    (dictGet (monitorTick 1 twoFetchFeed
          twoFetchState).st.tracker.tracking_sessions ("BTCUSDT")).map
        TrackingInfo.price_data = some [(0, 100), (1, 999)] ∧
    dictGet (monitorTick 1 twoFetchFeed twoFetchState).st.history
        ("BTCUSDT") = some [(1, 100)] := by
  refine ⟨?_, ?_, ?_⟩ <;>
    norm_num [monitorTick, twoFetchFeed, twoFetchState,
      update_tracking_data, updateSessions, processSymbols, processSymbol,
      pruneWindow, pctChange, firedUp, firedDown, guardedStart, is_tracking,
      dictGet, dictSet, start_tracking, mkTrackingInfo]

/-- Claim C2 (amended): the scheduler fetches once per tick for the
detector pass; `update_tracking_data` performs its own second fetch
whenever it has active sessions (and no fetch otherwise), so a tick makes
exactly one fetch call when the first fetch is empty or no session is
active, and exactly two otherwise — and the tracker's snapshot is the
second call's result, not the detector's. -/
theorem tick_fetch_count (now : ℚ) (feed : ℕ → List (String × ℚ))
    (st : MonitorState) :
    (monitorTick now feed st).fetchCalls =
      if feed 0 = [] then 1
      else if st.tracker.tracking_sessions = [] then 1 else 2 := by
  unfold monitorTick
  by_cases h : feed 0 = []
  · simp [h]
  · rw [if_neg h, if_neg h]
    by_cases h2 : st.tracker.tracking_sessions = [] <;> simp [h2]

end CryptoAlert
